import Mathlib

set_option maxRecDepth 20000
set_option maxHeartbeats 8000000

/-!
Verification development for the enterprise-genai-stack demo scripts.

The definitions below are a shallow embedding, in Lean 4, of the two source
files the frozen claims are about:

* `src/examples/mcp-api-implementation/mcp-vs-api-implementation.py`
  (namespace `MCPDemo`): the MCP proxy pipeline
  identity -> policy -> backend fan-out -> filter -> envelope -> audit.
  Wall-clock effects (`asyncio.sleep`) are modelled by a rational virtual
  clock advanced by exactly the slept amounts; `uuid4` request ids and
  `datetime.now()` readings are ambient nondeterminism and are passed in as
  explicit arguments; float size constants (`2.1`, `847`, ... `0.8` KB) are
  exact decimal literals and are modelled in `ℚ`.

* `src/examples/headless-agent-security-demo/headless_agent_security_demo.py`
  (namespace `HeadlessDemo`): security policy, tamper-evident audit events
  (truncated SHA-256 digests, implemented bit-for-bit below), and the
  `HeadlessAgent.create_file` / `update_file` operations, with the
  filesystem as an explicit association list from `repo/path` to content and
  `datetime.utcnow()` passed in as explicit timestamp arguments.

Nothing here models the narration `print` statements or the demo runners.
-/

/-! ## 32-bit helpers over `Nat`

Machine words are `Nat` values kept below `2 ^ 32`; overflow is explicit
`% 4294967296` where the Python `hashlib` semantics wraps. -/

def add32 (a b : Nat) : Nat := (a + b) % 4294967296

/-- Bitwise complement on a 32-bit word. -/
def not32 (x : Nat) : Nat := 4294967295 - x

/-- Right rotation of a 32-bit word by `n` places (`0 < n < 32`). -/
def rotr32 (n x : Nat) : Nat :=
  (x >>> n) + ((x % (2 ^ n)) <<< (32 - n))

/-- Left rotation of a 32-bit word by `n` places (`0 < n < 32`). -/
def rotl32 (n x : Nat) : Nat :=
  ((x <<< n) % 4294967296) + (x >>> (32 - n))

/-- Big-endian bytes of `v`, `n` bytes wide (most significant first). -/
def lenBytesBE : Nat → Nat → List Nat
  | 0, _ => []
  | n + 1, v => lenBytesBE n (v / 256) ++ [v % 256]

/-- Little-endian bytes of `v`, `n` bytes wide (least significant first). -/
def lenBytesLE : Nat → Nat → List Nat
  | 0, _ => []
  | n + 1, v => v % 256 :: lenBytesLE n (v / 256)

/-- Group a byte list into big-endian 32-bit words (SHA-256 convention). -/
def wordsBE : List Nat → List Nat
  | b0 :: b1 :: b2 :: b3 :: rest =>
      (((b0 * 256 + b1) * 256 + b2) * 256 + b3) :: wordsBE rest
  | _ => []

/-- Group a byte list into little-endian 32-bit words (MD5 convention). -/
def wordsLE : List Nat → List Nat
  | b0 :: b1 :: b2 :: b3 :: rest =>
      (b0 + 256 * (b1 + 256 * (b2 + 256 * b3))) :: wordsLE rest
  | _ => []

/-- Cut a byte list into 64-byte blocks; `fuel` bounds the recursion and is
passed as the total length, which always suffices. -/
def toBlocks : Nat → List Nat → List (List Nat)
  | _, [] => []
  | 0, _ => []
  | fuel + 1, bs => bs.take 64 :: toBlocks fuel (bs.drop 64)

/-- The bytes of a string, assuming ASCII content (which is all the demo ever
hashes); matches Python `str.encode()` on such strings. -/
def strBytes (s : String) : List Nat := s.toList.map Char.toNat

/-- Lowercase hex digit for a nibble. -/
def hexDigit (n : Nat) : Char :=
  if n < 10 then Char.ofNat (48 + n) else Char.ofNat (87 + n)

/-- Lowercase hex rendering of a byte list, as `bytes.hex()` would print. -/
def hexOfBytes (bs : List Nat) : String :=
  String.mk ((bs.map (fun b => [hexDigit (b / 16), hexDigit (b % 16)])).flatten)

/-! ## SHA-256 (`hashlib.sha256`) -/

/-- The 64 SHA-256 round constants, in decimal. -/
def sha256K : List Nat :=
  [1116352408, 1899447441, 3049323471, 3921009573, 961987163,
   1508970993, 2453635748, 2870763221, 3624381080, 310598401,
   607225278, 1426881987, 1925078388, 2162078206, 2614888103,
   3248222580, 3835390401, 4022224774, 264347078, 604807628,
   770255983, 1249150122, 1555081692, 1996064986, 2554220882,
   2821834349, 2952996808, 3210313671, 3336571891, 3584528711,
   113926993, 338241895, 666307205, 773529912, 1294757372,
   1396182291, 1695183700, 1986661051, 2177026350, 2456956037,
   2730485921, 2820302411, 3259730800, 3345764771, 3516065817,
   3600352804, 4094571909, 275423344, 430227734, 506948616,
   659060556, 883997877, 958139571, 1322822218, 1537002063,
   1747873779, 1955562222, 2024104815, 2227730452, 2361852424,
   2428436474, 2756734187, 3204031479, 3329325298]

/-- The eight SHA-256 initial hash values, in decimal. -/
def sha256H0 : List Nat :=
  [1779033703, 3144134277, 1013904242, 2773480762,
   1359893119, 2600822924, 528734635, 1541459225]

def ssig0 (x : Nat) : Nat := (rotr32 7 x) ^^^ (rotr32 18 x) ^^^ (x >>> 3)

def ssig1 (x : Nat) : Nat := (rotr32 17 x) ^^^ (rotr32 19 x) ^^^ (x >>> 10)

/-- Message-schedule extension; the accumulator is kept newest-first so the
back references `w[i-2]`, `w[i-7]`, `w[i-15]`, `w[i-16]` sit at positions
1, 6, 14 and 15. -/
def scheduleGo : Nat → List Nat → List Nat
  | 0, acc => acc
  | n + 1, acc =>
      let w := add32 (add32 (ssig1 (acc.getD 1 0)) (acc.getD 6 0))
                     (add32 (ssig0 (acc.getD 14 0)) (acc.getD 15 0))
      scheduleGo n (w :: acc)

/-- The 64-word message schedule of one 16-word block. -/
def schedule (w16 : List Nat) : List Nat :=
  (scheduleGo 48 w16.reverse).reverse

structure SHAWork where
  a : Nat
  b : Nat
  c : Nat
  d : Nat
  e : Nat
  f : Nat
  g : Nat
  hh : Nat

def sha256Round (st : SHAWork) (kw : Nat × Nat) : SHAWork :=
  let bigS1 := (rotr32 6 st.e) ^^^ (rotr32 11 st.e) ^^^ (rotr32 25 st.e)
  let ch := (st.e &&& st.f) ^^^ ((not32 st.e) &&& st.g)
  let t1 := add32 (add32 (add32 st.hh bigS1) (add32 ch kw.1)) kw.2
  let bigS0 := (rotr32 2 st.a) ^^^ (rotr32 13 st.a) ^^^ (rotr32 22 st.a)
  let mj := (st.a &&& st.b) ^^^ (st.a &&& st.c) ^^^ (st.b &&& st.c)
  let t2 := add32 bigS0 mj
  ⟨add32 t1 t2, st.a, st.b, st.c, add32 st.d t1, st.e, st.f, st.g⟩

def sha256Compress (hs : List Nat) (block : List Nat) : List Nat :=
  let ws := schedule (wordsBE block)
  let init : SHAWork :=
    ⟨hs.getD 0 0, hs.getD 1 0, hs.getD 2 0, hs.getD 3 0,
     hs.getD 4 0, hs.getD 5 0, hs.getD 6 0, hs.getD 7 0⟩
  let fin := (sha256K.zip ws).foldl sha256Round init
  [add32 (hs.getD 0 0) fin.a, add32 (hs.getD 1 0) fin.b,
   add32 (hs.getD 2 0) fin.c, add32 (hs.getD 3 0) fin.d,
   add32 (hs.getD 4 0) fin.e, add32 (hs.getD 5 0) fin.f,
   add32 (hs.getD 6 0) fin.g, add32 (hs.getD 7 0) fin.hh]

/-- Merkle-Damgard padding: `0x80`, zeros to 56 mod 64, then the bit length
big-endian in 8 bytes. -/
def sha256Pad (msg : List Nat) : List Nat :=
  let len := msg.length
  msg ++ 0x80 :: List.replicate ((119 - len % 64) % 64) 0 ++ lenBytesBE 8 (len * 8)

def sha256Bytes (msg : List Nat) : List Nat :=
  let padded := sha256Pad msg
  let hs := (toBlocks padded.length padded).foldl sha256Compress sha256H0
  (hs.map (fun w => lenBytesBE 4 w)).flatten

/-- Python `hashlib.sha256(s.encode()).hexdigest()` for ASCII `s`. -/
def sha256hex (s : String) : String := hexOfBytes (sha256Bytes (strBytes s))

/-- Python `hashlib.sha256(s.encode()).hexdigest()[:16]`: the truncated digest the
audit demo stores as an event signature. -/
def sig16 (s : String) : String := (sha256hex s).take 16

/-! ## MD5 (`hashlib.md5`)

Used by the headless-agent demo only for the `content_hash` /
`original_hash` / `new_hash` entries of an audit event `details` dictionary;
no claim inspects those values, but the embedding keeps them faithful. -/

def md5T : List Nat :=
  [0xd76aa478, 0xe8c7b756, 0x242070db, 0xc1bdceee,
   0xf57c0faf, 0x4787c62a, 0xa8304613, 0xfd469501,
   0x698098d8, 0x8b44f7af, 0xffff5bb1, 0x895cd7be,
   0x6b901122, 0xfd987193, 0xa679438e, 0x49b40821,
   0xf61e2562, 0xc040b340, 0x265e5a51, 0xe9b6c7aa,
   0xd62f105d, 0x02441453, 0xd8a1e681, 0xe7d3fbc8,
   0x21e1cde6, 0xc33707d6, 0xf4d50d87, 0x455a14ed,
   0xa9e3e905, 0xfcefa3f8, 0x676f02d9, 0x8d2a4c8a,
   0xfffa3942, 0x8771f681, 0x6d9d6122, 0xfde5380c,
   0xa4beea44, 0x4bdecfa9, 0xf6bb4b60, 0xbebfbc70,
   0x289b7ec6, 0xeaa127fa, 0xd4ef3085, 0x04881d05,
   0xd9d4d039, 0xe6db99e5, 0x1fa27cf8, 0xc4ac5665,
   0xf4292244, 0x432aff97, 0xab9423a7, 0xfc93a039,
   0x655b59c3, 0x8f0ccc92, 0xffeff47d, 0x85845dd1,
   0x6fa87e4f, 0xfe2ce6e0, 0xa3014314, 0x4e0811a1,
   0xf7537e82, 0xbd3af235, 0x2ad7d2bb, 0xeb86d391]

def md5S : List Nat :=
  [7, 12, 17, 22, 7, 12, 17, 22, 7, 12, 17, 22, 7, 12, 17, 22,
   5,  9, 14, 20, 5,  9, 14, 20, 5,  9, 14, 20, 5,  9, 14, 20,
   4, 11, 16, 23, 4, 11, 16, 23, 4, 11, 16, 23, 4, 11, 16, 23,
   6, 10, 15, 21, 6, 10, 15, 21, 6, 10, 15, 21, 6, 10, 15, 21]

structure MD5Work where
  a : Nat
  b : Nat
  c : Nat
  d : Nat

/-- One MD5 operation, for operation index `i` over message words `m`. -/
def md5Round (m : List Nat) (st : MD5Work) (i : Nat) : MD5Work :=
  let fg : Nat × Nat :=
    if i < 16 then ((st.b &&& st.c) ||| ((not32 st.b) &&& st.d), i)
    else if i < 32 then ((st.d &&& st.b) ||| ((not32 st.d) &&& st.c), (5 * i + 1) % 16)
    else if i < 48 then (st.b ^^^ st.c ^^^ st.d, (3 * i + 5) % 16)
    else (st.c ^^^ (st.b ||| (not32 st.d)), (7 * i) % 16)
  let sum := add32 (add32 (add32 st.a fg.1) (md5T.getD i 0)) (m.getD fg.2 0)
  ⟨st.d, add32 st.b (rotl32 (md5S.getD i 0) sum), st.b, st.c⟩

def md5Compress (hs : List Nat) (block : List Nat) : List Nat :=
  let m := wordsLE block
  let init : MD5Work := ⟨hs.getD 0 0, hs.getD 1 0, hs.getD 2 0, hs.getD 3 0⟩
  let fin := (List.range 64).foldl (md5Round m) init
  [add32 (hs.getD 0 0) fin.a, add32 (hs.getD 1 0) fin.b,
   add32 (hs.getD 2 0) fin.c, add32 (hs.getD 3 0) fin.d]

/-- MD5 padding: same `0x80`/zero scheme as SHA-256 but the bit length is
appended little-endian. -/
def md5Pad (msg : List Nat) : List Nat :=
  let len := msg.length
  msg ++ 0x80 :: List.replicate ((119 - len % 64) % 64) 0 ++ lenBytesLE 8 (len * 8)

def md5Bytes (msg : List Nat) : List Nat :=
  let padded := md5Pad msg
  let hs := (toBlocks padded.length padded).foldl md5Compress
    [0x67452301, 0xefcdab89, 0x98badcfe, 0x10325476]
  (hs.map (fun w => lenBytesLE 4 w)).flatten

/-- Python `hashlib.md5(s.encode()).hexdigest()` for ASCII `s`. -/
def md5hex (s : String) : String := hexOfBytes (md5Bytes (strBytes s))

/-! ## Headless agent security demo

Embedding of `headless_agent_security_demo.py`. The `SecurityPolicy`
constructor only installs literal tables, so the policy object is embedded
as top-level constants; `datetime.utcnow().isoformat()` and
`int(datetime.utcnow().timestamp())` readings are passed in as the explicit
arguments `tsIso` / `tsEpoch`; the workspace filesystem is an association
list from `repo ++ "/" ++ file_path` (the path under `workspace_dir`) to the
file content. -/

namespace HeadlessDemo

inductive ActionType where
  | FILE_CREATE
  | FILE_UPDATE
  | FILE_DELETE
  | REPO_ACCESS
  | POLICY_CHECK
deriving DecidableEq

/-- The `.value` string of each enum member. -/
def ActionType.value : ActionType → String
  | .FILE_CREATE => "file_create"
  | .FILE_UPDATE => "file_update"
  | .FILE_DELETE => "file_delete"
  | .REPO_ACCESS => "repo_access"
  | .POLICY_CHECK => "policy_check"

/-- How a Python bool renders inside an f-string. -/
def pyBool : Bool → String
  | true => "True"
  | false => "False"

structure AuditEvent where
  timestamp : String
  agent_id : String
  action : ActionType
  repo : String
  resource : String
  success : Bool
  details : List (String × String)
  signature : String
deriving DecidableEq

/-- Concatenated field string that `AuditEvent.__post_init__` (line 52) and
`AuditLogger.verify_integrity` (line 140) both hash: timestamp, agent id,
action value, repo, resource and the bool rendering of success. The
`details` and `signature` fields are not part of it. -/
def eventContent (timestamp agent_id : String) (action : ActionType)
    (repo resource : String) (success : Bool) : String :=
  timestamp ++ agent_id ++ action.value ++ repo ++ resource ++ pyBool success

def AuditEvent.content (e : AuditEvent) : String :=
  eventContent e.timestamp e.agent_id e.action e.repo e.resource e.success

/-- Constructing an `AuditEvent` runs `__post_init__`, which overwrites the
signature with the truncated SHA-256 digest of the covered fields. -/
def mkAuditEvent (timestamp agent_id : String) (action : ActionType)
    (repo resource : String) (success : Bool)
    (details : List (String × String)) : AuditEvent :=
  { timestamp := timestamp, agent_id := agent_id, action := action,
    repo := repo, resource := resource, success := success, details := details,
    signature := sig16 (eventContent timestamp agent_id action repo resource success) }

/-- Source `SecurityPolicy.authorized_repos`. -/
def authorized_repos : List (String × List String) :=
  [("sd-agentic-lab", ["agent-101", "agent-102"]),
   ("secure-repo", ["agent-101"]),
   ("public-docs", ["agent-101", "agent-102", "agent-103"])]

/-- Source `SecurityPolicy.restricted_files`. -/
def restricted_files : List String :=
  ["*.key", "*.pem", "secrets.yaml", ".env"]

/-- Source `SecurityPolicy.allowed_actions`. -/
def allowed_actions : List (String × List ActionType) :=
  [("agent-101", [.FILE_CREATE, .FILE_UPDATE, .REPO_ACCESS]),
   ("agent-102", [.FILE_CREATE, .FILE_UPDATE]),
   ("agent-103", [.FILE_CREATE])]

/-- Source `SecurityPolicy.can_access_repo`:
`repo in authorized_repos and agent_id in authorized_repos[repo]`. -/
def can_access_repo (agent_id repo : String) : Bool :=
  match authorized_repos.find? (fun p => p.1 == repo) with
  | some p => p.2.contains agent_id
  | none => false

/-- Source `SecurityPolicy.can_perform_action`:
`action in allowed_actions.get(agent_id, [])`. -/
def can_perform_action (agent_id : String) (action : ActionType) : Bool :=
  match allowed_actions.find? (fun p => p.1 == agent_id) with
  | some p => p.2.contains action
  | none => false

/-- Python `pattern.replace("*", "")`: drop every asterisk. -/
def removeStar (p : String) : String :=
  String.mk (p.toList.filter (fun c => c ≠ '*'))

/-- Python `s.endswith(suffix)`: character-level suffix test. -/
def pyEndsWith (s suffix : String) : Bool :=
  suffix.toList.isSuffixOf s.toList

/-- Source `SecurityPolicy.is_file_restricted`:
`any(filename.endswith(pattern.replace("*", "")) for pattern in restricted_files)`. -/
def is_file_restricted (filename : String) : Bool :=
  restricted_files.any (fun p => pyEndsWith filename (removeStar p))

/-- Source `AuditLogger.log_event`: append to the event list (the full-file JSON
rewrite in `_persist_log` stores exactly this list and is not modelled
separately). -/
def log_event (events : List AuditEvent) (e : AuditEvent) : List AuditEvent :=
  events ++ [e]

/-- Source `AuditLogger.verify_integrity`: recompute each digest in order, return
false at the first mismatch. -/
def verify_integrity : List AuditEvent → Bool
  | [] => true
  | e :: rest =>
      if e.signature == sig16 e.content then verify_integrity rest else false

/-- The record the verification pass identifies: the first event whose
recomputed digest mismatches, the one whose timestamp the
`[SECURITY] Audit integrity violation` message (line 143) names. -/
def firstViolation : List AuditEvent → Option AuditEvent
  | [] => none
  | e :: rest =>
      if e.signature == sig16 e.content then firstViolation rest else some e

/-- The exceptions the agent operations raise. -/
inductive AgentError where
  | permissionError (msg : String)
  | fileNotFoundError (msg : String)
deriving DecidableEq

def AgentError.isPermission : AgentError → Bool
  | .permissionError _ => true
  | _ => false

/-- Outcome of an operation that may raise. -/
def resultIsPermissionDenied : Except AgentError String → Bool
  | .error e => e.isPermission
  | .ok _ => false

/-- The agent workspace: association list from `repo/file_path` to content. -/
abbrev FS := List (String × String)

/-- Python `Path.write_text`, overwriting or creating the entry. -/
def fsWrite (fs : FS) (path content : String) : FS :=
  if (fs.find? (fun p => p.1 == path)).isSome then
    fs.map (fun p => if p.1 == path then (p.1, content) else p)
  else
    fs ++ [(path, content)]

/-- Python `Path.exists` / `Path.read_text` combined. -/
def fsRead (fs : FS) (path : String) : Option String :=
  (fs.find? (fun p => p.1 == path)).map Prod.snd

/-- Source `HeadlessAgent.verify_access` (lines 174-190): log a `REPO_ACCESS` audit
event either way, then raise `PermissionError` when the repo check fails. -/
def verify_access (agent_id repo tsIso : String) (audit : List AuditEvent) :
    Except AgentError Unit × List AuditEvent :=
  let can_access := can_access_repo agent_id repo
  let event := mkAuditEvent tsIso agent_id .REPO_ACCESS repo "access_check" can_access
      [("reason", if can_access then "authorized" else "unauthorized")]
  let audit2 := log_event audit event
  if can_access then (.ok (), audit2)
  else (.error (.permissionError
          ("[SECURITY] Agent " ++ agent_id ++ " unauthorized for repo: " ++ repo)), audit2)

/-- Source `HeadlessAgent.create_file` (lines 192-231). The `try` block around the
filesystem write is kept, but in this embedding the write itself cannot
fail, so the `except` branch that would log a failed `FILE_CREATE` event is
unreachable and does not appear. -/
def create_file (agent_id tsIso : String) (tsEpoch : Nat) (fs : FS)
    (audit : List AuditEvent) (repo file_path content : String) :
    Except AgentError String × FS × List AuditEvent :=
  match verify_access agent_id repo tsIso audit with
  | (.error e, audit2) => (.error e, fs, audit2)
  | (.ok _, audit2) =>
    if !can_perform_action agent_id .FILE_CREATE then
      (.error (.permissionError
          ("[SECURITY] Agent " ++ agent_id ++ " not authorized for file creation")),
       fs, audit2)
    else if is_file_restricted file_path then
      (.error (.permissionError ("[SECURITY] File " ++ file_path ++ " is restricted")),
       fs, audit2)
    else
      let full_path := repo ++ "/" ++ file_path
      let fs2 := fsWrite fs full_path content
      let commit_id := "commit-" ++ toString tsEpoch
      let event := mkAuditEvent tsIso agent_id .FILE_CREATE repo file_path true
          [("commit_id", commit_id), ("content_hash", md5hex content)]
      (.ok commit_id, fs2, log_event audit2 event)

/-- Source `HeadlessAgent.update_file` (lines 233-279). Unlike `create_file` there
is no `is_file_restricted` check. A missing file raises
`FileNotFoundError` inside the `try` block, so the `except` branch logs a
failed `FILE_UPDATE` event before re-raising. -/
def update_file (agent_id tsIso : String) (tsEpoch : Nat) (fs : FS)
    (audit : List AuditEvent) (repo file_path content : String) :
    Except AgentError String × FS × List AuditEvent :=
  match verify_access agent_id repo tsIso audit with
  | (.error e, audit2) => (.error e, fs, audit2)
  | (.ok _, audit2) =>
    if !can_perform_action agent_id .FILE_UPDATE then
      (.error (.permissionError
          ("[SECURITY] Agent " ++ agent_id ++ " not authorized for file updates")),
       fs, audit2)
    else
      let full_path := repo ++ "/" ++ file_path
      match fsRead fs full_path with
      | none =>
          let msg := "File " ++ file_path ++ " does not exist"
          let event := mkAuditEvent tsIso agent_id .FILE_UPDATE repo file_path false
              [("error", msg)]
          (.error (.fileNotFoundError msg), fs, log_event audit2 event)
      | some original_content =>
          let fs2 := fsWrite fs full_path content
          let commit_id := "commit-" ++ toString tsEpoch
          let event := mkAuditEvent tsIso agent_id .FILE_UPDATE repo file_path true
              [("commit_id", commit_id),
               ("original_hash", md5hex original_content),
               ("new_hash", md5hex content)]
          (.ok commit_id, fs2, log_event audit2 event)

end HeadlessDemo

/-! ## MCP proxy demo

Embedding of the MCP side of `mcp-vs-api-implementation.py`: the backend
service simulators and `MCPProxyServer.request_context`. -/

namespace MCPDemo

/-- JSON-like values of the simulated backend payloads. A Python `{...}`
literal (a set holding `Ellipsis`) is modelled as `.ellipsis` and `[...]`
as `.arr [.ellipsis]`; no claim inspects these placeholder values. -/
inductive Value where
  | str (s : String)
  | num (q : ℚ)
  | arr (xs : List Value)
  | obj (fields : List (String × Value))
  | ellipsis

/-- A raw or filtered per-source dictionary. -/
abbrev Payload := List (String × Value)

/-- Python `payload[key]`; all lookups in the source hit present keys, so
the default is never produced. -/
def payloadGet (p : Payload) (k : String) : Value :=
  ((p.find? (fun q => q.1 == k)).map Prod.snd).getD .ellipsis

/-- One entry of `BackendServices.call_log`. -/
structure BackendCall where
  service : String
  operation : String
  caller : String
  data_size : String
  includes_sensitive : Bool
  cost : Option String

/-- Proxy plus backend state threaded through a request: the centralized
audit trail, the class-level backend call log, and a virtual clock in
seconds advanced by exactly the `asyncio.sleep` amounts. -/
structure AuditRecordMCP where
  request_id : String
  timestamp : ℚ
  agent : String
  intent : String
  sources_accessed : List String
  policy_decision : String
  data_filtered : Bool
  redacted_fields : List String

structure MCPState where
  audit_log : List AuditRecordMCP
  call_log : List BackendCall
  clock : ℚ

/-- The 1000-transaction list of the account payload. -/
def transactionsList : List Value :=
  (List.range 1000).map (fun i => Value.obj
    [("id", .str ("TXN-" ++ toString i)), ("date", .str "2024-01-01"),
     ("amount", .num 100.00), ("merchant", .str "Store"),
     ("category", .str "retail")])

/-- Source `BackendServices.customer_service_get_profile`. -/
def customer_service_get_profile (customer_id caller : String) (st : MCPState) :
    Payload × MCPState :=
  let call : BackendCall :=
    { service := "Customer Service",
      operation := "GET /customers/" ++ customer_id, caller := caller,
      data_size := "2.1 KB", includes_sensitive := true, cost := none }
  let st2 := { st with call_log := st.call_log ++ [call], clock := st.clock + 0.08 }
  ([("customer_id", .str customer_id),
    ("name", .str "John Smith"),
    ("email", .str "john.smith@email.com"),
    ("phone", .str "+1-555-0123"),
    ("address", .str "123 Main St, Anytown, USA 12345"),
    ("date_of_birth", .str "1985-03-15"),
    ("employment_status", .str "employed"),
    ("employer", .str "TechCorp Inc."),
    ("annual_income", .num 85000.00),
    ("ssn", .str "123-45-6789"),
    ("internal_credit_flag", .str "A+"),
    ("internal_notes", .str "VIP - handle with care"),
    ("marketing_preferences", .ellipsis),
    ("last_login", .str "2024-01-15T10:30:00Z")], st2)

/-- Source `BackendServices.account_service_get_history`. -/
def account_service_get_history (customer_id caller : String) (st : MCPState) :
    Payload × MCPState :=
  let call : BackendCall :=
    { service := "Account Service",
      operation := "GET /accounts/" ++ customer_id ++ "/history", caller := caller,
      data_size := "847 KB", includes_sensitive := true, cost := none }
  let st2 := { st with call_log := st.call_log ++ [call], clock := st.clock + 0.12 }
  ([("account_id", .str "ACC-001"),
    ("customer_id", .str customer_id),
    ("balance", .num 15420.50),
    ("avg_monthly_balance", .num 12500.00),
    ("overdraft_count", .num 1),
    ("account_age_months", .num 36),
    ("account_type", .str "checking"),
    ("routing_number", .str "021000021"),
    ("account_number", .str "1234567890"),
    ("transactions", .arr transactionsList),
    ("pending_transactions", .arr [.ellipsis]),
    ("recurring_payments", .arr [.ellipsis])], st2)

/-- Source `BackendServices.credit_bureau_get_score`. -/
def credit_bureau_get_score (customer_id caller : String) (st : MCPState) :
    Payload × MCPState :=
  let call : BackendCall :=
    { service := "Credit Bureau (External)",
      operation := "POST /v2/credit-report/" ++ customer_id, caller := caller,
      data_size := "156 KB", includes_sensitive := true, cost := some "$0.50" }
  let st2 := { st with call_log := st.call_log ++ [call], clock := st.clock + 0.25 }
  ([("customer_id", .str customer_id),
    ("score", .num 720),
    ("rating", .str "Good"),
    ("score_factors", .arr
      [.str "Length of credit history: Positive",
       .str "Payment history: Positive",
       .str "Credit utilization: Moderate"]),
    ("full_credit_report", .obj
      [("trade_lines", .arr [.ellipsis]), ("inquiries", .arr [.ellipsis]),
       ("public_records", .arr [.ellipsis]), ("collections", .arr [.ellipsis])]),
    ("previous_scores", .arr [.ellipsis]),
    ("dispute_history", .arr [.ellipsis])], st2)

/-- Source `BackendServices.property_service_get_valuation`. -/
def property_service_get_valuation (property_id caller : String) (st : MCPState) :
    Payload × MCPState :=
  let call : BackendCall :=
    { service := "Property Service",
      operation := "GET /properties/" ++ property_id ++ "/valuation", caller := caller,
      data_size := "12 KB", includes_sensitive := false, cost := none }
  let st2 := { st with call_log := st.call_log ++ [call], clock := st.clock + 0.10 }
  ([("property_id", .str property_id),
    ("estimated_value", .num 350000.00),
    ("last_appraisal_date", .str "2024-06-15"),
    ("property_type", .str "single_family"),
    ("address", .str "456 Oak Avenue, Somewhere, USA"),
    ("square_footage", .num 2200),
    ("lot_size", .num 0.25),
    ("year_built", .num 1998),
    ("comparable_sales", .arr [.ellipsis]),
    ("neighborhood_data", .ellipsis)], st2)

/-- Source `BackendServices.policy_service_get_lending_rules`. -/
def policy_service_get_lending_rules (caller : String) (st : MCPState) :
    Payload × MCPState :=
  let call : BackendCall :=
    { service := "Policy Service",
      operation := "GET /policies/lending/current", caller := caller,
      data_size := "3 KB", includes_sensitive := false, cost := none }
  let st2 := { st with call_log := st.call_log ++ [call], clock := st.clock + 0.05 }
  ([("policy_id", .str "LEND-2024-Q1"),
    ("version", .str "2024.1.3"),
    ("effective_date", .str "2024-01-01"),
    ("min_credit_score", .num 650),
    ("max_dti_ratio", .num 0.43),
    ("min_account_age_months", .num 12),
    ("max_loan_to_value", .num 0.80),
    ("excluded_property_types", .arr [.str "mobile_home", .str "timeshare"]),
    ("regional_adjustments", .ellipsis),
    ("exception_criteria", .ellipsis)], st2)

/-- The identity dictionary built in STEP 1 of `request_context`
(lines 541-547); `validated_at` records the `datetime.now()` reading,
modelled by the virtual clock. -/
structure Identity where
  agent_id : String
  principal : String
  delegations : List String
  purpose : String
  validated_at : ℚ

/-- STEP 1 as a function of its inputs: the identity is constructed
unconditionally from the caller token, there is no failure path. -/
def validateIdentity (agent_token intent : String) (now : ℚ) : Identity :=
  { agent_id := agent_token, principal := "loan-processing-system",
    delegations := ["credit-decisions"], purpose := intent, validated_at := now }

/-- The per-source allow-list installed in STEP 2 (lines 560-566). It is a
literal: no input, the intent included, influences it. -/
def allowed_fields : List (String × List String) :=
  [("customer", ["name", "employment_status", "annual_income"]),
   ("account", ["balance", "avg_monthly_balance", "overdraft_count", "account_age_months"]),
   ("credit", ["score", "rating"]),
   ("property", ["estimated_value", "property_type"]),
   ("policy", ["min_credit_score", "max_dti_ratio", "min_account_age_months", "max_loan_to_value"])]

/-- The redacted-field list of STEP 2 (lines 568-572), also a literal. -/
def redacted_fields : List String :=
  ["ssn", "internal_notes", "internal_credit_flag",
   "account_number", "routing_number", "transactions",
   "full_credit_report", "dispute_history"]

structure SourceEntry where
  service : String
  freshness : String
  filtered : Bool

structure ContextProvenance where
  request_id : String
  timestamp : ℚ
  sources : List SourceEntry
  identity : Identity
  policy_decision : String
  data_filtered : Bool
  original_size_kb : ℚ
  filtered_size_kb : ℚ

structure ContextConstraints where
  ttl_seconds : Nat
  permitted_actions : List String
  redacted_fields : List String
  data_classification : String

structure GovernedContextEnvelope where
  payload : List (String × Payload)
  provenance : ContextProvenance
  constraints : ContextConstraints

/-- The `parameters` dictionary the MCP agent passes. -/
structure Params where
  applicant_id : String
  property_id : String
  requested_amount : ℚ

/-- Source `MCPProxyServer.request_context` (lines 519-737). The `uuid4` request id
is the explicit `request_id` argument; the five backend awaits run in the
order written in the source, each advancing the clock by its sleep. -/
def requestContext (intent : String) (parameters : Params) (agent_token : String)
    (request_id : String) (st : MCPState) : GovernedContextEnvelope × MCPState :=
  let identity := validateIdentity agent_token intent st.clock
  let caller_name := "MCPProxy:" ++ request_id
  let r1 := customer_service_get_profile parameters.applicant_id caller_name st
  let customer_raw := r1.1
  let r2 := account_service_get_history parameters.applicant_id caller_name r1.2
  let account_raw := r2.1
  let r3 := credit_bureau_get_score parameters.applicant_id caller_name r2.2
  let credit_raw := r3.1
  let r4 := property_service_get_valuation parameters.property_id caller_name r3.2
  let property_raw := r4.1
  let r5 := policy_service_get_lending_rules caller_name r4.2
  let policy_raw := r5.1
  let st5 := r5.2
  let original_size_kb : ℚ := 2.1 + 847 + 156 + 12 + 3
  let filtered_payload : List (String × Payload) :=
    [("customer",
      [("name", payloadGet customer_raw "name"),
       ("employment_status", payloadGet customer_raw "employment_status"),
       ("annual_income", payloadGet customer_raw "annual_income")]),
     ("account",
      [("balance", payloadGet account_raw "balance"),
       ("avg_monthly_balance", payloadGet account_raw "avg_monthly_balance"),
       ("overdraft_count", payloadGet account_raw "overdraft_count"),
       ("account_age_months", payloadGet account_raw "account_age_months")]),
     ("credit",
      [("score", payloadGet credit_raw "score"),
       ("rating", payloadGet credit_raw "rating")]),
     ("property",
      [("estimated_value", payloadGet property_raw "estimated_value"),
       ("property_type", payloadGet property_raw "property_type")]),
     ("policy",
      [("min_credit_score", payloadGet policy_raw "min_credit_score"),
       ("max_dti_ratio", payloadGet policy_raw "max_dti_ratio"),
       ("min_account_age_months", payloadGet policy_raw "min_account_age_months"),
       ("max_loan_to_value", payloadGet policy_raw "max_loan_to_value")])]
  let filtered_size_kb : ℚ := 0.8
  let provenance : ContextProvenance :=
    { request_id := request_id, timestamp := st5.clock,
      sources :=
        [⟨"customer-service", "real-time", true⟩,
         ⟨"account-service", "real-time", true⟩,
         ⟨"credit-bureau", "24h", true⟩,
         ⟨"property-service", "30d", true⟩,
         ⟨"policy-service", "real-time", true⟩],
      identity := identity, policy_decision := "ALLOW with filtering",
      data_filtered := true,
      original_size_kb := original_size_kb, filtered_size_kb := filtered_size_kb }
  let constraints : ContextConstraints :=
    { ttl_seconds := 300, permitted_actions := ["assess", "recommend"],
      redacted_fields := redacted_fields, data_classification := "confidential" }
  let record : AuditRecordMCP :=
    { request_id := request_id, timestamp := provenance.timestamp,
      agent := agent_token, intent := intent,
      sources_accessed := provenance.sources.map (fun s => s.service),
      policy_decision := "ALLOW", data_filtered := true,
      redacted_fields := redacted_fields }
  let st6 := { st5 with audit_log := st5.audit_log ++ [record] }
  ({ payload := filtered_payload, provenance := provenance,
     constraints := constraints }, st6)

/-- Field names of each filtered per-source dictionary. -/
def payloadKeysBySource (env : GovernedContextEnvelope) : List (String × List String) :=
  env.payload.map (fun p => (p.1, p.2.map Prod.fst))

/-- All field names appearing in the filtered payload, across sources. -/
def filteredFieldNames (env : GovernedContextEnvelope) : List String :=
  (env.payload.map (fun p => p.2.map Prod.fst)).flatten

/-- A fresh proxy (`MCPProxyServer.__init__` starts with an empty audit
log), an empty backend call log and the clock at zero. -/
def st0 : MCPState := { audit_log := [], call_log := [], clock := 0 }

/-- The raw field names the five sources return, aggregated; keys do not
depend on the state, so a fresh state is used to read them off. -/
def rawFieldNames (parameters : Params) : List String :=
  (customer_service_get_profile parameters.applicant_id "c" st0).1.map Prod.fst ++
  (account_service_get_history parameters.applicant_id "c" st0).1.map Prod.fst ++
  (credit_bureau_get_score parameters.applicant_id "c" st0).1.map Prod.fst ++
  (property_service_get_valuation parameters.property_id "c" st0).1.map Prod.fst ++
  (policy_service_get_lending_rules "c" st0).1.map Prod.fst

/-- The loan application of the demo runner (`run_comparison`). -/
def demoParams : Params :=
  { applicant_id := "CUST-12345", property_id := "PROP-789",
    requested_amount := 280000.00 }

end MCPDemo

/-- Keys of the filtered dictionary the envelope carries for one source. -/
def MCPDemo.sourceFilteredKeys (env : MCPDemo.GovernedContextEnvelope) (source : String) :
    List String :=
  ((env.payload.find? (fun p => p.1 == source)).map (fun p => p.2.map Prod.fst)).getD []

/-- A stored audit record exactly as the demo creates one, for the tamper
scenarios. -/
def HeadlessDemo.tamperBase : HeadlessDemo.AuditEvent :=
  HeadlessDemo.mkAuditEvent "2024-01-01T00:00:00" "agent-101" .FILE_CREATE
    "secure-repo" "config.yaml" true [("commit_id", "commit-1704067200")]

/-- The same stored record with one digest-covered field (`repo`) mutated
after creation; the stored signature is left as created. -/
def HeadlessDemo.tamperMut : HeadlessDemo.AuditEvent :=
  { HeadlessDemo.tamperBase with repo := "evil-repo" }

/-- The same stored record with the uncovered `details` field mutated after
creation. -/
def HeadlessDemo.tamperDetails : HeadlessDemo.AuditEvent :=
  { HeadlessDemo.tamperBase with details := [("commit_id", "TAMPERED")] }

/-! ## Theorems

One theorem (plus, where the claim fails, a counterexample, and where a
theorem carries a hypothesis, a closed witness) per claim of the frozen
claim list; helper lemmas are shared and carry no claim name. -/

open HeadlessDemo MCPDemo

/-- Helper: the envelope constraints always carry the literal redacted-field
list of STEP 2. -/
theorem requestContext_redacted_eq (intent : String) (parameters : Params)
    (agent_token request_id : String) (st : MCPState) :
    (requestContext intent parameters agent_token request_id st).1.constraints.redacted_fields
      = MCPDemo.redacted_fields := rfl

/-- Helper: the aggregated raw field names, read off the five simulated
backends; they do not depend on the request parameters. -/
theorem rawFieldNames_eq (parameters : Params) :
    rawFieldNames parameters =
      ["customer_id", "name", "email", "phone", "address", "date_of_birth",
       "employment_status", "employer", "annual_income", "ssn",
       "internal_credit_flag", "internal_notes", "marketing_preferences",
       "last_login", "account_id", "customer_id", "balance",
       "avg_monthly_balance", "overdraft_count", "account_age_months",
       "account_type", "routing_number", "account_number", "transactions",
       "pending_transactions", "recurring_payments", "customer_id", "score",
       "rating", "score_factors", "full_credit_report", "previous_scores",
       "dispute_history", "property_id", "estimated_value",
       "last_appraisal_date", "property_type", "address", "square_footage",
       "lot_size", "year_built", "comparable_sales", "neighborhood_data",
       "policy_id", "version", "effective_date", "min_credit_score",
       "max_dti_ratio", "min_account_age_months", "max_loan_to_value",
       "excluded_property_types", "regional_adjustments",
       "exception_criteria"] := rfl

/-- Helper: the aggregated filtered field names of any envelope. -/
theorem filteredFieldNames_eq (intent : String) (parameters : Params)
    (agent_token request_id : String) (st : MCPState) :
    filteredFieldNames (requestContext intent parameters agent_token request_id st).1
      = ["name", "employment_status", "annual_income", "balance",
         "avg_monthly_balance", "overdraft_count", "account_age_months",
         "score", "rating", "estimated_value", "property_type",
         "min_credit_score", "max_dti_ratio", "min_account_age_months",
         "max_loan_to_value"] := rfl

/-- Claim C1: for every intent and every source, the filtered payload built
by `MCPProxyServer.request_context` contains exactly the fields listed for
that source in the policy decision allow-list mapping, no more, no less:
per source, the key list of the filtered dictionary equals the allowed
list, so every field not named there is dropped. -/
theorem c1_filtered_payload_is_exactly_allow_list (intent : String)
    (parameters : Params) (agent_token request_id : String) (st : MCPState) :
    payloadKeysBySource (requestContext intent parameters agent_token request_id st).1
      = MCPDemo.allowed_fields := rfl

/-- Claim C6: the policy decision is a pure literal of the code, so two
requests with identical intent (whatever their parameters, token, request
id or proxy state, hence also for identical policy version) produce the
identical redacted-field list, identical per-source allowed-field
projection, and identical policy-decision string. -/
theorem c6_policy_decision_deterministic (intent : String)
    (p1 p2 : Params) (t1 t2 r1 r2 : String) (s1 s2 : MCPState) :
    (requestContext intent p1 t1 r1 s1).1.constraints.redacted_fields
      = (requestContext intent p2 t2 r2 s2).1.constraints.redacted_fields
    ∧ payloadKeysBySource (requestContext intent p1 t1 r1 s1).1
      = payloadKeysBySource (requestContext intent p2 t2 r2 s2).1
    ∧ (requestContext intent p1 t1 r1 s1).1.provenance.policy_decision
      = (requestContext intent p2 t2 r2 s2).1.provenance.policy_decision :=
  ⟨rfl, rfl, rfl⟩

/-- Claim C7 counterexample: the claim asserts that identity validation
fails with `AuthenticationError` when the caller token cannot be associated
with a known principal, surfaced before any backend call. The code has no
such path: the token `"invalid-token-999"` appears in no table of the
repository, yet `request_context` associates it with the fixed principal
`"loan-processing-system"`, performs all five backend calls and returns an
envelope instead of failing. -/
theorem c7_counterexample :
    (requestContext "loan_assessment" demoParams "invalid-token-999" "ab12cd34" st0).1.provenance.identity.agent_id
      = "invalid-token-999"
    ∧ (requestContext "loan_assessment" demoParams "invalid-token-999" "ab12cd34" st0).1.provenance.identity.principal
      = "loan-processing-system"
    ∧ (requestContext "loan_assessment" demoParams "invalid-token-999" "ab12cd34" st0).2.call_log.length
      = 5 :=
  ⟨rfl, rfl, rfl⟩

/-- Claim C7 as amended: identity validation never fails. For every caller
token and intent, STEP 1 unconditionally constructs the identity from the
token (principal `"loan-processing-system"`, purpose the intent, validated
at the current clock) with no `AuthenticationError` or `AuthorizationError`
path, and the request then always proceeds to exactly the five backend
calls and returns an envelope carrying that identity. -/
theorem c7_identity_validation_never_fails (intent : String)
    (parameters : Params) (agent_token request_id : String) (st : MCPState) :
    (requestContext intent parameters agent_token request_id st).1.provenance.identity
      = validateIdentity agent_token intent st.clock
    ∧ (requestContext intent parameters agent_token request_id st).2.call_log.length
      = st.call_log.length + 5 := by
  refine ⟨rfl, ?_⟩
  show ((((st.call_log
      ++ [_]) ++ [_]) ++ [_]) ++ [_] ++ [_]).length = st.call_log.length + 5
  simp

/-- Claim C8 counterexample: the claim says the fan-out stage issues all
source fetches concurrently with a per-source timeout. The five awaits of
STEP 3 are sequential, so the simulated elapsed time of a request is the
sum of the five sleep latencies, 0.60 s, strictly more than the 0.25 s that
a concurrent join would take (the largest single latency, the credit
bureau); no timeout appears anywhere in the code. -/
theorem c8_counterexample :
    (requestContext "loan_assessment" demoParams "loan-agent-001" "ab12cd34" st0).2.clock
      = 0.60
    ∧ (0.60 : ℚ) > 0.25 := by
  constructor
  · show ((((st0.clock + 0.08) + 0.12) + 0.25) + 0.10) + 0.05 = _
    norm_num [st0]
  · norm_num

/-- Claim C8 as amended: the fan-out stage issues the five source fetches
sequentially in the order written, each awaited to completion before the
next (so the elapsed simulated time is the sum of the per-source
latencies), waits for all of them, and returns a payload keyed by source
name; no per-source timeout is applied. -/
theorem c8_fanout_sequential (intent : String) (parameters : Params)
    (agent_token request_id : String) (st : MCPState) :
    (requestContext intent parameters agent_token request_id st).2.call_log
      = st.call_log ++
        [{ service := "Customer Service",
           operation := "GET /customers/" ++ parameters.applicant_id,
           caller := "MCPProxy:" ++ request_id, data_size := "2.1 KB",
           includes_sensitive := true, cost := none },
         { service := "Account Service",
           operation := "GET /accounts/" ++ parameters.applicant_id ++ "/history",
           caller := "MCPProxy:" ++ request_id, data_size := "847 KB",
           includes_sensitive := true, cost := none },
         { service := "Credit Bureau (External)",
           operation := "POST /v2/credit-report/" ++ parameters.applicant_id,
           caller := "MCPProxy:" ++ request_id, data_size := "156 KB",
           includes_sensitive := true, cost := some "$0.50" },
         { service := "Property Service",
           operation := "GET /properties/" ++ parameters.property_id ++ "/valuation",
           caller := "MCPProxy:" ++ request_id, data_size := "12 KB",
           includes_sensitive := false, cost := none },
         { service := "Policy Service",
           operation := "GET /policies/lending/current",
           caller := "MCPProxy:" ++ request_id, data_size := "3 KB",
           includes_sensitive := false, cost := none }]
    ∧ (requestContext intent parameters agent_token request_id st).2.clock
      = st.clock + (0.08 + 0.12 + 0.25 + 0.10 + 0.05)
    ∧ (requestContext intent parameters agent_token request_id st).1.payload.map Prod.fst
      = ["customer", "account", "credit", "property", "policy"] := by
  refine ⟨?_, ?_, rfl⟩
  · show ((((st.call_log ++ [_]) ++ [_]) ++ [_]) ++ [_]) ++ [_] = _
    simp [List.append_assoc]
  · show ((((st.clock + 0.08) + 0.12) + 0.25) + 0.10) + 0.05 = _
    simp [add_assoc]

/-- Claim C2: for every successful context request whose request id is
fresh (the code draws it from `uuid4`), exactly one audit record with a
request id matching the envelope provenance exists in the audit log, and
it is appended to the proxy state before the envelope is handed back:
the returned state is the old one with that single record appended. -/
theorem c2_exactly_one_matching_audit_record (intent : String)
    (parameters : Params) (agent_token request_id : String) (st : MCPState)
    (hfresh : request_id ∉ st.audit_log.map AuditRecordMCP.request_id) :
    (requestContext intent parameters agent_token request_id st).1.provenance.request_id
      = request_id
    ∧ (∃ rec : AuditRecordMCP, rec.request_id = request_id
        ∧ (requestContext intent parameters agent_token request_id st).2.audit_log
            = st.audit_log ++ [rec])
    ∧ ((requestContext intent parameters agent_token request_id st).2.audit_log.filter
        (fun r => r.request_id == request_id)).length = 1 := by
  refine ⟨rfl, ⟨_, rfl, rfl⟩, ?_⟩
  show (List.filter _ (st.audit_log ++ [_])).length = 1
  rw [List.filter_append, List.length_append]
  have h0 : st.audit_log.filter (fun r => r.request_id == request_id) = [] := by
    rw [List.filter_eq_nil_iff]
    intro a ha
    simp only [beq_iff_eq]
    intro hcontra
    exact hfresh (hcontra ▸ List.mem_map_of_mem AuditRecordMCP.request_id ha)
  rw [h0]
  simp

/-- Claim C2 witness: the theorem instantiated at the demo request against
a fresh proxy. -/
theorem c2_witness :
    (requestContext "loan_assessment" demoParams "loan-agent-001" "ab12cd34" st0).1.provenance.request_id
      = "ab12cd34"
    ∧ (∃ rec : AuditRecordMCP, rec.request_id = "ab12cd34"
        ∧ (requestContext "loan_assessment" demoParams "loan-agent-001" "ab12cd34" st0).2.audit_log
            = st0.audit_log ++ [rec])
    ∧ ((requestContext "loan_assessment" demoParams "loan-agent-001" "ab12cd34" st0).2.audit_log.filter
        (fun r => r.request_id == "ab12cd34")).length = 1 :=
  c2_exactly_one_matching_audit_record "loan_assessment" demoParams
    "loan-agent-001" "ab12cd34" st0 (by simp [st0])

/-- Claim C4 counterexample: the claim says the envelope redacted-field set
equals the set difference between raw and filtered field names aggregated
across sources. The field `email` is returned raw by the customer source
and dropped from the filtered payload, yet it is absent from the
redacted-field list, which names only 8 of the dropped fields. -/
theorem c4_counterexample :
    (rawFieldNames demoParams).contains "email" = true
    ∧ ((filteredFieldNames
        (requestContext "loan_assessment" demoParams "loan-agent-001" "ab12cd34" st0).1).contains
        "email") = false
    ∧ (((requestContext "loan_assessment" demoParams "loan-agent-001" "ab12cd34" st0).1.constraints.redacted_fields).contains
        "email") = false := by
  refine ⟨?_, ?_, ?_⟩
  · rw [rawFieldNames_eq]; decide
  · rw [filteredFieldNames_eq]; decide
  · rw [requestContext_redacted_eq]; decide

/-- Claim C4 as amended: for every request the provenance satisfies
original size at least the filtered size, and the envelope redacted-field
list is a subset of the set difference between raw and filtered field
names aggregated across sources: every listed redacted field is a raw
field name that the filtered payload does not carry (the converse
inclusion fails, see the counterexample). -/
theorem c4_sizes_and_redacted_subset (intent : String) (parameters : Params)
    (agent_token request_id : String) (st : MCPState) :
    (requestContext intent parameters agent_token request_id st).1.provenance.original_size_kb
      ≥ (requestContext intent parameters agent_token request_id st).1.provenance.filtered_size_kb
    ∧ ∀ f ∈ (requestContext intent parameters agent_token request_id st).1.constraints.redacted_fields,
        (rawFieldNames parameters).contains f = true
        ∧ (filteredFieldNames
            (requestContext intent parameters agent_token request_id st).1).contains f = false := by
  constructor
  · show (2.1 + 847 + 156 + 12 + 3 : ℚ) ≥ 0.8
    norm_num
  · intro f hf
    rw [requestContext_redacted_eq] at hf
    rw [rawFieldNames_eq, filteredFieldNames_eq]
    simp only [MCPDemo.redacted_fields] at hf
    fin_cases hf <;> exact ⟨by decide, by decide⟩

/-- Claim C4 witness: the amended theorem applied to the demo request at
the redacted field `ssn`. -/
theorem c4_witness :
    (((requestContext "loan_assessment" demoParams "loan-agent-001" "ab12cd34" st0).1.constraints.redacted_fields).contains
        "ssn") = true
    ∧ ((rawFieldNames demoParams).contains "ssn" = true
        ∧ (filteredFieldNames
            (requestContext "loan_assessment" demoParams "loan-agent-001" "ab12cd34" st0).1).contains
            "ssn" = false) :=
  ⟨by rw [requestContext_redacted_eq]; decide,
   (c4_sizes_and_redacted_subset "loan_assessment" demoParams "loan-agent-001"
      "ab12cd34" st0).2 "ssn" (by rw [requestContext_redacted_eq]; decide)⟩

/-- Claim C5 counterexample: the claim says the filtered customer payload
for a `"loan_assessment"` request is exactly the two fields name and
annual income; the code also keeps `employment_status` (the policy literal
allows three customer fields). -/
theorem c5_counterexample :
    ((sourceFilteredKeys
        (requestContext "loan_assessment" demoParams "loan-agent-001" "ab12cd34" st0).1
        "customer").contains "employment_status") = true
    ∧ (["name", "annual_income"] : List String).contains "employment_status" = false :=
  ⟨by decide, by decide⟩

/-- Claim C5 as amended: for the intent `"loan_assessment"`, the customer
source raw payload contains name, ssn, annual income and internal notes,
the filtered customer payload is exactly name, employment status and
annual income (the three fields the policy literal allows), and both ssn
and internal notes appear among the redacted fields. -/
theorem c5_loan_assessment_customer_scenario :
    sourceFilteredKeys
        (requestContext "loan_assessment" demoParams "loan-agent-001" "ab12cd34" st0).1
        "customer"
      = ["name", "employment_status", "annual_income"]
    ∧ ((customer_service_get_profile demoParams.applicant_id "MCPProxy:ab12cd34" st0).1.map
        Prod.fst).contains "name" = true
    ∧ ((customer_service_get_profile demoParams.applicant_id "MCPProxy:ab12cd34" st0).1.map
        Prod.fst).contains "ssn" = true
    ∧ ((customer_service_get_profile demoParams.applicant_id "MCPProxy:ab12cd34" st0).1.map
        Prod.fst).contains "annual_income" = true
    ∧ ((customer_service_get_profile demoParams.applicant_id "MCPProxy:ab12cd34" st0).1.map
        Prod.fst).contains "internal_notes" = true
    ∧ (((requestContext "loan_assessment" demoParams "loan-agent-001" "ab12cd34" st0).1.constraints.redacted_fields).contains
        "ssn") = true
    ∧ (((requestContext "loan_assessment" demoParams "loan-agent-001" "ab12cd34" st0).1.constraints.redacted_fields).contains
        "internal_notes") = true := by
  refine ⟨rfl, by decide, by decide, by decide, by decide, ?_, ?_⟩
  · rw [requestContext_redacted_eq]; decide
  · rw [requestContext_redacted_eq]; decide

/-- Helper: a stored record whose stored signature no longer matches the
recomputed digest of its covered fields is detected by the verification
pass, and it is the record identified, provided the records before it are
intact. -/
theorem verify_detects (post : List AuditEvent) (e : AuditEvent)
    (hbad : (e.signature == sig16 e.content) = false) :
    ∀ pre : List AuditEvent, (∀ a ∈ pre, a.signature = sig16 a.content) →
      verify_integrity (pre ++ e :: post) = false
      ∧ firstViolation (pre ++ e :: post) = some e := by
  intro pre
  induction pre with
  | nil =>
      intro _
      simp [verify_integrity, firstViolation, hbad]
  | cons a pre ih =>
      intro hpre
      have ha : a.signature = sig16 a.content := hpre a (List.mem_cons_self a pre)
      have ih2 := ih (fun b hb => hpre b (List.mem_cons_of_mem a hb))
      simp [verify_integrity, firstViolation, ha, ih2.1, ih2.2]

/-- Claim C3 counterexample: the claim says mutating one field of a stored
AuditRecord after creation makes `verify_integrity()` return false and
identifies that record. The digest covers only timestamp, agent id,
action, repo, resource and success, so mutating the `details` field of a
stored record leaves the check passing and nothing identified. -/
theorem c3_counterexample :
    tamperBase.details = [("commit_id", "commit-1704067200")]
    ∧ tamperDetails.details = [("commit_id", "TAMPERED")]
    ∧ verify_integrity [tamperDetails] = true
    ∧ firstViolation [tamperDetails] = none := by
  refine ⟨rfl, rfl, ?_, ?_⟩ <;> decide

/-- Claim C3 as amended: every AuditEvent is created carrying the truncated
SHA-256 digest of exactly its timestamp, agent id, action value, repo,
resource and success fields; and for any stored log, a stored record whose
signature no longer matches the digest recomputed from those covered
fields — which is what mutating one covered field produces, short of a
truncated-digest collision — makes `verify_integrity()` return false, with
the verification pass identifying that record (the first mismatch);
mutating the uncovered `details` field is never detected. -/
theorem c3_digest_at_creation_and_tamper_detected :
    (∀ (ts aid : String) (act : ActionType) (repo res : String) (suc : Bool)
        (det : List (String × String)),
      (mkAuditEvent ts aid act repo res suc det).signature
        = sig16 (eventContent ts aid act repo res suc))
    ∧ (∀ (pre post : List AuditEvent) (e : AuditEvent),
        (∀ a ∈ pre, a.signature = sig16 a.content) →
        e.signature ≠ sig16 e.content →
        verify_integrity (pre ++ e :: post) = false
        ∧ firstViolation (pre ++ e :: post) = some e) := by
  constructor
  · intro ts aid act repo res suc det
    simp only [mkAuditEvent]
  · intro pre post e hpre hbad
    exact verify_detects post e (by rw [beq_eq_false_iff_ne]; exact hbad) pre hpre

/-- Claim C3 witness: the stored demo record with its `repo` field mutated
after creation has a signature that no longer matches the recomputed
digest, and the verification pass rejects the log and identifies it. -/
theorem c3_witness :
    tamperMut.signature ≠ sig16 tamperMut.content
    ∧ verify_integrity [tamperMut] = false
    ∧ firstViolation [tamperMut] = some tamperMut := by
  have hbad : tamperMut.signature ≠ sig16 tamperMut.content := by decide
  have h := c3_digest_at_creation_and_tamper_detected.2 [] [] tamperMut
    (by simp) hbad
  exact ⟨hbad, h.1, h.2⟩

/-- Claim C9: `SecurityPolicy.is_file_restricted(filename)` returns true
exactly when the filename ends with one of `.key`, `.pem`,
`secrets.yaml` or `.env` (the patterns with asterisks stripped), so the
decision depends only on the suffix: `mysecrets.yaml` is restricted while
a filename with any other suffix is not. -/
theorem c9_is_file_restricted_iff_suffix :
    (∀ filename : String,
      is_file_restricted filename
        = (pyEndsWith filename ".key" || pyEndsWith filename ".pem"
            || pyEndsWith filename "secrets.yaml" || pyEndsWith filename ".env"))
    ∧ is_file_restricted "mysecrets.yaml" = true
    ∧ is_file_restricted "innocent.txt" = false := by
  refine ⟨?_, by decide, by decide⟩
  intro filename
  have h1 : removeStar "*.key" = ".key" := by decide
  have h2 : removeStar "*.pem" = ".pem" := by decide
  have h3 : removeStar "secrets.yaml" = "secrets.yaml" := by decide
  have h4 : removeStar ".env" = ".env" := by decide
  simp [is_file_restricted, restricted_files, h1, h2, h3, h4, Bool.or_assoc]

/-- Claim C10 counterexample: the claim extends the restricted-file refusal
to `update_file`, but only `create_file` checks `is_file_restricted`:
agent-101 (authorized for `secure-repo` and holding `FILE_UPDATE`) updates
the restricted file `config.key` and the operation succeeds and overwrites
the file instead of raising PermissionError. -/
theorem c10_counterexample :
    is_file_restricted "config.key" = true
    ∧ can_access_repo "agent-101" "secure-repo" = true
    ∧ can_perform_action "agent-101" .FILE_UPDATE = true
    ∧ (update_file "agent-101" "2024-01-01T00:00:00" 1704067200
        [("secure-repo/config.key", "logging: enabled")] []
        "secure-repo" "config.key" "policy: off").1 = .ok "commit-1704067200"
    ∧ fsRead (update_file "agent-101" "2024-01-01T00:00:00" 1704067200
        [("secure-repo/config.key", "logging: enabled")] []
        "secure-repo" "config.key" "policy: off").2.1 "secure-repo/config.key"
      = some "policy: off" := by
  refine ⟨by decide, by decide, by decide, ?_, ?_⟩ <;> rfl

/-- Claim C10 as amended: for every agent whose repo-access check succeeds
but that lacks the required action permission (`FILE_CREATE` for
`create_file`, `FILE_UPDATE` for `update_file`), and for `create_file`
also when the target file is restricted, the operation raises
PermissionError before any filesystem write: the workspace is returned
unchanged and the audit log is extended by exactly the preceding
`REPO_ACCESS` check event, with no `FILE_CREATE` or `FILE_UPDATE` event
for the denied attempt. (`update_file` performs no restricted-file check;
see the counterexample.) -/
theorem c10_denied_action_leaves_state_unchanged :
    (∀ (agent tsIso : String) (tsEpoch : Nat) (fs : FS)
        (audit : List AuditEvent) (repo fp content : String),
      can_access_repo agent repo = true →
      (can_perform_action agent .FILE_CREATE = false ∨ is_file_restricted fp = true) →
      resultIsPermissionDenied (create_file agent tsIso tsEpoch fs audit repo fp content).1 = true
      ∧ (create_file agent tsIso tsEpoch fs audit repo fp content).2.1 = fs
      ∧ (create_file agent tsIso tsEpoch fs audit repo fp content).2.2
          = audit ++ [mkAuditEvent tsIso agent .REPO_ACCESS repo "access_check" true
              [("reason", "authorized")]])
    ∧ (∀ (agent tsIso : String) (tsEpoch : Nat) (fs : FS)
        (audit : List AuditEvent) (repo fp content : String),
      can_access_repo agent repo = true →
      can_perform_action agent .FILE_UPDATE = false →
      resultIsPermissionDenied (update_file agent tsIso tsEpoch fs audit repo fp content).1 = true
      ∧ (update_file agent tsIso tsEpoch fs audit repo fp content).2.1 = fs
      ∧ (update_file agent tsIso tsEpoch fs audit repo fp content).2.2
          = audit ++ [mkAuditEvent tsIso agent .REPO_ACCESS repo "access_check" true
              [("reason", "authorized")]]) := by
  constructor
  · intro agent tsIso tsEpoch fs audit repo fp content hacc hden
    have hva : verify_access agent repo tsIso audit
        = (.ok (), audit ++ [mkAuditEvent tsIso agent .REPO_ACCESS repo
            "access_check" true [("reason", "authorized")]]) := by
      simp [verify_access, log_event, hacc]
    rcases hden with hperm | hres
    · simp [create_file, hva, hperm, resultIsPermissionDenied, AgentError.isPermission]
    · by_cases hp : can_perform_action agent .FILE_CREATE = true
      · simp [create_file, hva, hp, hres, resultIsPermissionDenied, AgentError.isPermission]
      · simp only [Bool.not_eq_true] at hp
        simp [create_file, hva, hp, resultIsPermissionDenied, AgentError.isPermission]
  · intro agent tsIso tsEpoch fs audit repo fp content hacc hperm
    have hva : verify_access agent repo tsIso audit
        = (.ok (), audit ++ [mkAuditEvent tsIso agent .REPO_ACCESS repo
            "access_check" true [("reason", "authorized")]]) := by
      simp [verify_access, log_event, hacc]
    simp [update_file, hva, hperm, resultIsPermissionDenied, AgentError.isPermission]

/-- Claim C10 witness: the amended theorem at the demo scenarios — agent-101
creating the restricted `secrets.key` in `sd-agentic-lab` (demo test 3)
and agent-103, which lacks `FILE_UPDATE`, updating `readme.md` in
`public-docs` (demo test 4). -/
theorem c10_witness :
    (can_access_repo "agent-101" "sd-agentic-lab" = true
      ∧ is_file_restricted "secrets.key" = true
      ∧ resultIsPermissionDenied (create_file "agent-101" "t1" 100 [] []
          "sd-agentic-lab" "secrets.key" "secret-data").1 = true
      ∧ (create_file "agent-101" "t1" 100 [] []
          "sd-agentic-lab" "secrets.key" "secret-data").2.1 = []
      ∧ (create_file "agent-101" "t1" 100 [] []
          "sd-agentic-lab" "secrets.key" "secret-data").2.2
        = [] ++ [mkAuditEvent "t1" "agent-101" .REPO_ACCESS "sd-agentic-lab"
            "access_check" true [("reason", "authorized")]])
    ∧ (can_access_repo "agent-103" "public-docs" = true
      ∧ can_perform_action "agent-103" .FILE_UPDATE = false
      ∧ resultIsPermissionDenied (update_file "agent-103" "t2" 200 [] []
          "public-docs" "readme.md" "updated content").1 = true
      ∧ (update_file "agent-103" "t2" 200 [] []
          "public-docs" "readme.md" "updated content").2.1 = []
      ∧ (update_file "agent-103" "t2" 200 [] []
          "public-docs" "readme.md" "updated content").2.2
        = [] ++ [mkAuditEvent "t2" "agent-103" .REPO_ACCESS "public-docs"
            "access_check" true [("reason", "authorized")]]) := by
  have hc := c10_denied_action_leaves_state_unchanged.1 "agent-101" "t1" 100
    [] [] "sd-agentic-lab" "secrets.key" "secret-data" (by decide)
    (Or.inr (by decide))
  have hu := c10_denied_action_leaves_state_unchanged.2 "agent-103" "t2" 200
    [] [] "public-docs" "readme.md" "updated content" (by decide) (by decide)
  exact ⟨⟨by decide, by decide, hc.1, hc.2.1, hc.2.2⟩,
         ⟨by decide, by decide, hu.1, hu.2.1, hu.2.2⟩⟩

